import Mathlib

/-!
Verification of the change-detection / diff-extraction / template-rendering
pipeline of the spec-ops action.

JavaScript strings are modelled as lists of characters (`JStr`): string
splitting, joining, trimming and prefix tests are then ordinary list
operations, and "byte-identical" is list equality.  External effects are
passed in explicitly: the git process invocations become oracle functions
returning `Option` results (`none` models a failed command), the filesystem
used for template resolution becomes a record of functions, the process
environment becomes an `Env` record, and the current clock reading becomes an
explicit `now` argument.
-/

namespace SpecOps

/-- JavaScript strings, modelled as lists of characters. -/
abbrev JStr := List Char

/-- Test whether `pat` is a (leading) prefix of `s`; model of JavaScript
`s.startsWith(pat)`. -/
def strStartsWith : JStr → JStr → Bool
  | _, [] => true
  | [], _ :: _ => false
  | c :: cs, p :: ps => c == p && strStartsWith cs ps

/-- Model of JavaScript `s.endsWith(pat)`. -/
def strEndsWith (s pat : JStr) : Bool :=
  strStartsWith s.reverse pat.reverse

/-- Model of JavaScript `String.prototype.trim` (whitespace stripped from both
ends). -/
def jsTrim (s : JStr) : JStr :=
  ((s.dropWhile Char.isWhitespace).reverse.dropWhile Char.isWhitespace).reverse

/-- Model of the JavaScript idiom `a || b` for an optional string `a`: the
default `b` is used when `a` is `undefined` or the empty string (both falsy). -/
def jsOr (a : Option JStr) (b : JStr) : JStr :=
  match a with
  | some s => if s = [] then b else s
  | none => b

/-- Decimal digits of `n`, most significant first, written with explicit fuel
so that it is structurally recursive (the fuel `n + 1` always suffices);
model of JavaScript number-to-string interpolation for natural numbers. -/
def natToDigitsAux : Nat → Nat → JStr
  | 0, _ => []
  | fuel + 1, n =>
    if n < 10 then [Nat.digitChar n]
    else natToDigitsAux fuel (n / 10) ++ [Nat.digitChar (n % 10)]

/-- Decimal representation of a natural number as a `JStr`. -/
def natToDigits (n : Nat) : JStr :=
  natToDigitsAux (n + 1) n

/-! ## Data model of `file-detector.ts` and `diff-generator.ts` -/

/-- Change classification of a file (`ChangedFile['changeType']`). -/
inductive ChangeType
  | added
  | modified
  | deleted
  | renamed
deriving DecidableEq

/-- Source interface `ChangedFile`. -/
structure ChangedFile where
  path : JStr
  changeType : ChangeType
  previousPath : Option JStr := none
deriving DecidableEq

/-- Source interface `DiffOptions`. -/
structure DiffOptions where
  contextLines : Nat
  maxLines : Nat
deriving DecidableEq

/-- Source interface `FileDiff`. -/
structure FileDiff where
  file : ChangedFile
  diff : JStr
  truncated : Bool
  lineCount : Nat
deriving DecidableEq

/-- Truncation note appended by `processDiffOutput`:
`... (diff truncated, N more lines)`. -/
def truncNote (omitted : Nat) : JStr :=
  ("... (diff truncated, ").data ++ natToDigits omitted ++ (" more lines)").data

/-- Translation of `processDiffOutput` (diff-generator.ts, lines 97-126):
split the raw diff into lines, and when the line count exceeds `maxLines`
keep the first `maxLines` lines followed by a blank line and the truncation
note. -/
def processDiffOutput (file : ChangedFile) (rawDiff : JStr) (maxLines : Nat) :
    FileDiff :=
  let lines := rawDiff.splitOn '\n'
  let lineCount := lines.length
  if maxLines < lineCount then
    let truncatedLines := lines.take maxLines ++ [[], truncNote (lineCount - maxLines)]
    { file := file
      diff := ['\n'].intercalate truncatedLines
      truncated := true
      lineCount := lineCount }
  else
    { file := file, diff := rawDiff, truncated := false, lineCount := lineCount }

/-- Placeholder diff text produced when diff generation fails for a file
(diff-generator.ts, line 73). -/
def placeholderDiff : JStr :=
  ("Unable to generate diff for this file.").data

/-- Translation of `generateDiffForFile` (diff-generator.ts, lines 40-78).
The git process invocation is abstracted by the oracle `execDiff`, which
returns the stdout of the constructed `git diff` command, or `none` when the
command fails; on failure the file receives the placeholder diff with
`truncated = false` and `lineCount = 0`. -/
def generateDiffForFile (execDiff : ChangedFile → Option JStr)
    (file : ChangedFile) (options : DiffOptions) : FileDiff :=
  match execDiff file with
  | some stdout => processDiffOutput file stdout options.maxLines
  | none => { file := file, diff := placeholderDiff, truncated := false, lineCount := 0 }

/-- Translation of `generateDiffs` (diff-generator.ts, lines 23-35): one
`FileDiff` is produced per input file, in order. -/
def generateDiffs (execDiff : ChangedFile → Option JStr)
    (files : List ChangedFile) (options : DiffOptions) : List FileDiff :=
  files.map (fun file => generateDiffForFile execDiff file options)

/-! ## file-detector.ts -/

/-- Source interface `FileDetectorOptions`. -/
structure FileDetectorOptions where
  patterns : List JStr
  excludePatterns : List JStr
  caseSensitive : Bool
  createOnNewFiles : Bool
  createOnDeletedFiles : Bool

/-- Model of `micromatch.isMatch(path, patterns, {nocase})`: the third-party
glob matcher is abstracted by a per-pattern predicate `m` (taking the
`nocase` flag, the path and one pattern); with a list of patterns,
micromatch reports a match iff some pattern in the list matches. -/
def micromatchIsMatch (m : Bool → JStr → JStr → Bool) (nocase : Bool)
    (path : JStr) (patterns : List JStr) : Bool :=
  patterns.any (fun p => m nocase path p)

/-- Per-file predicate of `filterFilesByPatterns` (file-detector.ts, lines
158-176): the file must match some include pattern, and, when exclude
patterns are present, must match none of them. -/
def patternPred (m : Bool → JStr → JStr → Bool) (includePatterns excludePatterns : List JStr)
    (nocase : Bool) (file : ChangedFile) : Bool :=
  let included := micromatchIsMatch m nocase file.path includePatterns
  if !included then false
  else if 0 < excludePatterns.length &&
      micromatchIsMatch m nocase file.path excludePatterns then false
  else true

/-- Translation of `filterFilesByPatterns` (file-detector.ts, lines 150-177). -/
def filterFilesByPatterns (m : Bool → JStr → JStr → Bool) (files : List ChangedFile)
    (includePatterns excludePatterns : List JStr) (caseSensitive : Bool) :
    List ChangedFile :=
  files.filter (patternPred m includePatterns excludePatterns (!caseSensitive))

/-- Change-type gate applied after pattern filtering (file-detector.ts, lines
47-57): added files are dropped when `createOnNewFiles` is off, deleted files
are dropped when `createOnDeletedFiles` is off; everything else is kept. -/
def typeGate (createOnNewFiles createOnDeletedFiles : Bool) (file : ChangedFile) : Bool :=
  if file.changeType == ChangeType.added && !createOnNewFiles then false
  else if file.changeType == ChangeType.deleted && !createOnDeletedFiles then false
  else true

/-- Translation of the pure part of `detectChangedFiles` (file-detector.ts,
lines 25-60): the git enumeration of changed files is passed in as
`changedFiles`, then pattern filtering and the change-type gate are applied
in order. -/
def detectChangedFiles (m : Bool → JStr → JStr → Bool)
    (changedFiles : List ChangedFile) (options : FileDetectorOptions) :
    List ChangedFile :=
  (filterFilesByPatterns m changedFiles options.patterns options.excludePatterns
      options.caseSensitive).filter
    (typeGate options.createOnNewFiles options.createOnDeletedFiles)

/-- Translation of the per-line body of the parsing loop of
`parseGitDiffNameStatus` (file-detector.ts, lines 111-142): it contributes
either no entry or exactly one entry for a line of
`git diff --name-status` output. -/
def parseNameStatusLine (line : JStr) : List ChangedFile :=
  let parts := line.splitOn '\t'
  let status := parts.getD 0 []
  match parts[1]? with
  | none => []
  | some path =>
    if path = [] then []
    else if strStartsWith status (("R").data) then
      match parts[2]? with
      | none => []
      | some newPath =>
        if newPath = [] then []
        else [{ path := newPath, changeType := ChangeType.renamed, previousPath := some path }]
    else if status = ("A").data then
      [{ path := path, changeType := ChangeType.added, previousPath := none }]
    else if status = ("D").data then
      [{ path := path, changeType := ChangeType.deleted, previousPath := none }]
    else if status = ("M").data ∨ strStartsWith status (("M").data) then
      [{ path := path, changeType := ChangeType.modified, previousPath := none }]
    else
      [{ path := path, changeType := ChangeType.modified, previousPath := none }]

/-- Translation of `parseGitDiffNameStatus` (file-detector.ts, lines
107-145): trim the output, split into lines, drop empty lines, and process
each line with `parseNameStatusLine`. -/
def parseGitDiffNameStatus (output : JStr) : List ChangedFile :=
  ((((jsTrim output).splitOn '\n').filter (fun l => 0 < l.length)).map
      parseNameStatusLine).flatten

/-- Fallback listing of `getChangedFilesFromGit` (file-detector.ts, lines
95-100): the stdout of `git ls-files` is trimmed, split into lines, empty
lines are dropped, and every path is classified as `added`. -/
def listAllTrackedAsAdded (lsFilesOut : JStr) : List ChangedFile :=
  (((jsTrim lsFilesOut).splitOn '\n').filter (fun l => 0 < l.length)).map
    (fun path => { path := path, changeType := ChangeType.added, previousPath := none })

/-- Translation of `getChangedFilesFromGit` (file-detector.ts, lines 65-102).
The name-status comparison command is abstracted by `diffResult` (`none`
models a failed command) and the `git ls-files` stdout by `lsFilesOut`; on
failure the function falls back to listing every tracked file as `added`. -/
def getChangedFilesFromGit (diffResult : Option JStr) (lsFilesOut : JStr) :
    List ChangedFile :=
  match diffResult with
  | some stdout => parseGitDiffNameStatus stdout
  | none => listAllTrackedAsAdded lsFilesOut

/-! ## template-renderer.ts -/

/-- Source interface `TemplateContext` (template-renderer.ts, lines 8-38). -/
structure TemplateContext where
  filename : JStr
  file_path : JStr
  file_link : JStr
  diff : JStr
  diff_raw : JStr
  commit_sha : JStr
  commit_sha_short : JStr
  commit_link : JStr
  commit_message : JStr
  commit_date : JStr
  author : JStr
  pull_request : Bool
  pr_number : JStr
  pr_link : JStr
  pr_title : JStr
  branch : JStr
  change_type : JStr
  previous_path : JStr
deriving DecidableEq

/-- Model of the `Partial<TemplateContext>` argument of `renderIssue`:
only the fields that `buildTemplateContext` actually reads from the base
context are kept, each one optional. -/
structure BaseContext where
  commit_sha : Option JStr := none
  commit_message : Option JStr := none
  commit_date : Option JStr := none
  author : Option JStr := none
  pr_number : Option JStr := none
  pr_title : Option JStr := none
  branch : Option JStr := none
deriving DecidableEq

/-- Source interface `RenderOptions` (template-renderer.ts, lines 40-48). -/
structure RenderOptions where
  titleTemplate : JStr
  bodyTemplate : JStr
  includeDiff : Bool
  includeFileLink : Bool
  includeCommitLink : Bool
  includePrLink : Bool
  sanitizeDiff : Bool
deriving DecidableEq

/-- Source interface `RenderedIssue` (template-renderer.ts, lines 50-53). -/
structure RenderedIssue where
  title : JStr
  body : JStr
deriving DecidableEq

/-- Process environment variables read by the template renderer. -/
structure Env where
  GITHUB_SERVER_URL : Option JStr := none
  GITHUB_REPOSITORY : Option JStr := none
  GITHUB_SHA : Option JStr := none
  GITHUB_REF_NAME : Option JStr := none
deriving DecidableEq

/-- Filesystem and path-resolution interface used by `resolveBodyTemplate`:
`resolve` models `path.resolve(process.cwd(), ·)`, `repoRoot` models
`process.cwd()`, and `existsSync` / `readFileSync` model the `fs` calls. -/
structure FsModel where
  resolve : JStr → JStr
  repoRoot : JStr
  existsSync : JStr → Bool
  readFileSync : JStr → JStr

/-- The built-in default issue body template `DEFAULT_TEMPLATE`
(template-renderer.ts, lines 56-79). -/
def DEFAULT_TEMPLATE : JStr :=
  ("## Specification Changed\n\nA specification file has been modified and may require implementation changes.\n\n**File:** \x7b\x7b file_path \x7d\x7d\n**Changed in:** \x7b\x7b commit_sha_short \x7d\x7d (\x7b\x7b commit_link \x7d\x7d)\n\x7b\x7b#if pull_request\x7d\x7d\n**Pull Request:** \x7b\x7b pr_link \x7d\x7d\n\x7b\x7b/if\x7d\x7d\n**Author:** @\x7b\x7b author \x7d\x7d\n**Date:** \x7b\x7b commit_date \x7d\x7d\n\n## Changes\n\n\x7b\x7b\x7b diff \x7d\x7d\x7d\n\n## Checklist\n\n- [ ] Reviewed specification change\n- [ ] Determined if code changes are required\n- [ ] Implementation complete (or confirmed no changes needed)\n\n---\n*This issue was automatically created by [spec-ops-action](https://github.com/spec-ops-method/spec-ops-action)*").data

/-- Translation of `formatDiffAsCodeBlock` (diff-generator.ts, lines
131-136). -/
def formatDiffAsCodeBlock (diff : JStr) : JStr :=
  if diff = [] ∨ (jsTrim diff).length = 0 then
    ("```\nNo changes detected.\n```").data
  else
    ("```diff\n").data ++ diff ++ ("\n```").data

/-- Translation of `getRepoUrl` (template-renderer.ts, lines 214-218). -/
def getRepoUrl (env : Env) : JStr :=
  jsOr env.GITHUB_SERVER_URL (("https://github.com").data) ++ [Char.ofNat 47] ++
    jsOr env.GITHUB_REPOSITORY []

/-- Model of `path.basename`: trailing slashes are dropped, then the last
slash-separated segment is returned. -/
def jsBasename (p : JStr) : JStr :=
  let q := (p.reverse.dropWhile (fun c => c == Char.ofNat 47)).reverse
  if q = [] then p else (q.splitOn (Char.ofNat 47)).getLastD []

/-- Rendering of a `ChangeType` as the string stored in the template
context. -/
def changeTypeStr : ChangeType → JStr
  | ChangeType.added => ("added").data
  | ChangeType.modified => ("modified").data
  | ChangeType.deleted => ("deleted").data
  | ChangeType.renamed => ("renamed").data

/-- Translation of `buildTemplateContext` (template-renderer.ts, lines
109-174).  The ambient process state is explicit: `env` holds the
environment variables and `now` the `new Date().toISOString()` reading used
as the default commit date. -/
def buildTemplateContext (env : Env) (now : JStr) (fileDiff : FileDiff)
    (baseContext : BaseContext) (options : RenderOptions) : TemplateContext :=
  let file := fileDiff.file
  let filename := jsBasename file.path
  let formattedDiff := if options.includeDiff then formatDiffAsCodeBlock fileDiff.diff else []
  let diff := if options.sanitizeDiff then formattedDiff else formattedDiff
  let diff_raw := if options.includeDiff then fileDiff.diff else []
  let repoUrl := getRepoUrl env
  let commitSha := jsOr baseContext.commit_sha (jsOr env.GITHUB_SHA [])
  let file_link :=
    if options.includeFileLink then
      repoUrl ++ ("/blob/").data ++ commitSha ++ [Char.ofNat 47] ++ file.path
    else []
  let commit_link :=
    if options.includeCommitLink then repoUrl ++ ("/commit/").data ++ commitSha
    else []
  let prNumber := jsOr baseContext.pr_number []
  let pr_link :=
    if options.includePrLink && !(prNumber == []) then
      repoUrl ++ ("/pull/").data ++ prNumber
    else []
  { filename := filename
    file_path := file.path
    file_link := file_link
    diff := diff
    diff_raw := diff_raw
    commit_sha := commitSha
    commit_sha_short := commitSha.take 7
    commit_link := commit_link
    commit_message := jsOr baseContext.commit_message []
    commit_date := jsOr baseContext.commit_date now
    author := jsOr baseContext.author []
    pull_request := !(prNumber == [])
    pr_number := prNumber
    pr_link := pr_link
    pr_title := jsOr baseContext.pr_title []
    branch := jsOr baseContext.branch (jsOr env.GITHUB_REF_NAME [])
    change_type := changeTypeStr file.changeType
    previous_path := jsOr file.previousPath [] }

/-- Translation of `resolveBodyTemplate` (template-renderer.ts, lines
179-209): empty input falls back to the default template; a path-looking
input (ending in `.md` or containing a slash) is resolved against the
repository root, rejected when the resolved path escapes the root, read when
the file exists, and otherwise replaced by the default template; anything
else is an inline template.  The logged warnings are side effects and are
not modelled. -/
def resolveBodyTemplate (fsm : FsModel) (templateInput : JStr) : JStr :=
  if templateInput = [] ∨ jsTrim templateInput = [] then DEFAULT_TEMPLATE
  else if strEndsWith templateInput ((".md").data) ||
      templateInput.contains (Char.ofNat 47) then
    let templatePath := fsm.resolve templateInput
    if !(strStartsWith templatePath fsm.repoRoot) then DEFAULT_TEMPLATE
    else if fsm.existsSync templatePath then fsm.readFileSync templatePath
    else DEFAULT_TEMPLATE
  else templateInput

/-- Lookup of a template variable in a `TemplateContext`, mirroring how the
Handlebars engine resolves the fields of the context object; an unknown name
renders as the empty string. -/
def lookupVar (ctx : TemplateContext) (name : JStr) : JStr :=
  if name = ("filename").data then ctx.filename
  else if name = ("file_path").data then ctx.file_path
  else if name = ("file_link").data then ctx.file_link
  else if name = ("diff").data then ctx.diff
  else if name = ("diff_raw").data then ctx.diff_raw
  else if name = ("commit_sha").data then ctx.commit_sha
  else if name = ("commit_sha_short").data then ctx.commit_sha_short
  else if name = ("commit_link").data then ctx.commit_link
  else if name = ("commit_message").data then ctx.commit_message
  else if name = ("commit_date").data then ctx.commit_date
  else if name = ("author").data then ctx.author
  else if name = ("pull_request").data then
    (if ctx.pull_request then ("true").data else ("false").data)
  else if name = ("pr_number").data then ctx.pr_number
  else if name = ("pr_link").data then ctx.pr_link
  else if name = ("pr_title").data then ctx.pr_title
  else if name = ("branch").data then ctx.branch
  else if name = ("change_type").data then ctx.change_type
  else if name = ("previous_path").data then ctx.previous_path
  else []

/-- HTML escaping applied by Handlebars to double-brace substitutions. -/
def hbEscape (s : JStr) : JStr :=
  (s.map (fun c =>
    if c == '&' then ("&amp;").data
    else if c == '<' then ("&lt;").data
    else if c == '>' then ("&gt;").data
    else if c == '"' then ("&quot;").data
    else if c == Char.ofNat 39 then ("&#x27;").data
    else if c == Char.ofNat 96 then ("&#x60;").data
    else if c == '=' then ("&#x3D;").data
    else [c])).flatten

/-- Split `s` at the first occurrence of `pat`: returns the part before the
occurrence and the part after it, or `none` when `pat` does not occur. -/
def splitFirst (pat : JStr) : JStr → Option (JStr × JStr)
  | [] => none
  | c :: cs =>
    if strStartsWith (c :: cs) pat then some ([], (c :: cs).drop pat.length)
    else
      match splitFirst pat cs with
      | some (pre, post) => some (c :: pre, post)
      | none => none

/-- Fuel-indexed core of the Handlebars model: triple-brace substitutions
insert the raw variable value, double-brace substitutions insert the
HTML-escaped value, and everything else is copied verbatim.  Each recursive
call strictly shrinks the remaining template, so fuel `length + 1` always
suffices. -/
def hbRenderFuel (ctx : TemplateContext) : Nat → JStr → JStr
  | 0, _ => []
  | _ + 1, [] => []
  | fuel + 1, c :: cs =>
    if strStartsWith (c :: cs) (("\x7b\x7b\x7b").data) then
      match splitFirst (("\x7d\x7d\x7d").data) ((c :: cs).drop 3) with
      | some (varName, rest) => lookupVar ctx (jsTrim varName) ++ hbRenderFuel ctx fuel rest
      | none => c :: hbRenderFuel ctx fuel cs
    else if strStartsWith (c :: cs) (("\x7b\x7b").data) then
      match splitFirst (("\x7d\x7d").data) ((c :: cs).drop 2) with
      | some (varName, rest) =>
        hbEscape (lookupVar ctx (jsTrim varName)) ++ hbRenderFuel ctx fuel rest
      | none => c :: hbRenderFuel ctx fuel cs
    else c :: hbRenderFuel ctx fuel cs

/-- Model of the external Handlebars engine (`Handlebars.compile` followed by
application to the context): plain variable substitution with
escape-by-default and triple-brace opt-out, as described for the rendering
stage; block helpers are not modelled. -/
def hbRender (ctx : TemplateContext) (template : JStr) : JStr :=
  hbRenderFuel ctx (template.length + 1) template

/-- Translation of `renderIssue` (template-renderer.ts, lines 84-104): build
the full context, render the title template, resolve the body template and
render it with the same context. -/
def renderIssue (fsm : FsModel) (env : Env) (now : JStr) (fileDiff : FileDiff)
    (options : RenderOptions) (context : BaseContext) : RenderedIssue :=
  let fullContext := buildTemplateContext env now fileDiff context options
  let title := hbRender fullContext options.titleTemplate
  let bodyTemplateContent := resolveBodyTemplate fsm options.bodyTemplate
  let body := hbRender fullContext bodyTemplateContent
  { title := title, body := body }

/-- JavaScript truthiness of an optional string: `undefined` and the empty
string are falsy. -/
def jsTruthy (a : Option JStr) : Bool :=
  match a with
  | some s => !(s == [])
  | none => false

/-! ## Concrete instances used by witnesses and counterexamples -/

/-- A glob matcher instance for concrete tests: a pattern matches exactly the
identical path. -/
def exactMatcher : Bool → JStr → JStr → Bool :=
  fun _ path pat => path == pat

/-- Concrete changed file for the pattern-filtering witness. -/
def c2File : ChangedFile :=
  { path := ("docs/a.md").data, changeType := ChangeType.modified }

/-- Concrete detector options for the pattern-filtering witness. -/
def c2Options : FileDetectorOptions :=
  { patterns := [("docs/a.md").data]
    excludePatterns := []
    caseSensitive := true
    createOnNewFiles := false
    createOnDeletedFiles := false }

/-- Concrete filesystem model whose resolver escapes the repository root. -/
def c4Fs : FsModel :=
  { resolve := fun _ => ("/etc/passwd").data
    repoRoot := ("/repo").data
    existsSync := fun _ => false
    readFileSync := fun _ => ("SECRET").data }

/-- Concrete filesystem model used by the rendering examples. -/
def exFsm : FsModel :=
  { resolve := fun s => s
    repoRoot := []
    existsSync := fun _ => false
    readFileSync := fun _ => [] }

/-- Concrete file diff used by the rendering examples. -/
def exFileDiff : FileDiff :=
  { file := { path := ("x.md").data, changeType := ChangeType.modified }
    diff := []
    truncated := false
    lineCount := 1 }

/-- Render options whose inline body template prints the commit date. -/
def c7Options : RenderOptions :=
  { titleTemplate := []
    bodyTemplate := ("\x7b\x7b commit_date \x7d\x7d").data
    includeDiff := false
    includeFileLink := false
    includeCommitLink := false
    includePrLink := false
    sanitizeDiff := false }

/-- A base context that does supply a commit date. -/
def exBaseDated : BaseContext :=
  { commit_date := some (("2024-01-02T00:00:00.000Z").data) }

/-- Render options with every link inclusion flag switched on. -/
def c8Options : RenderOptions :=
  { titleTemplate := []
    bodyTemplate := []
    includeDiff := true
    includeFileLink := true
    includeCommitLink := true
    includePrLink := true
    sanitizeDiff := true }

/-! ## Helper lemmas -/

/-- No chunk produced by `splitOnP` contains an element satisfying the
splitting predicate. -/
theorem splitOnP_forall_not (p : Char → Bool) (xs : JStr) :
    ∀ l ∈ xs.splitOnP p, ∀ a ∈ l, p a = false := by
  induction xs with
  | nil =>
    intro l hl a ha
    rw [List.splitOnP_nil, List.mem_singleton] at hl
    subst hl
    exact absurd ha (List.not_mem_nil a)
  | cons x xs ih =>
    intro l hl a ha
    rw [List.splitOnP_cons] at hl
    by_cases hx : p x
    · rw [if_pos hx] at hl
      rcases List.mem_cons.mp hl with rfl | hl
      · exact absurd ha (List.not_mem_nil a)
      · exact ih l hl a ha
    · rw [if_neg hx] at hl
      cases hsplit : xs.splitOnP p with
      | nil => exact absurd hsplit (List.splitOnP_ne_nil p xs)
      | cons h t =>
        rw [hsplit, List.modifyHead_cons] at hl
        rcases List.mem_cons.mp hl with rfl | hl
        · rcases List.mem_cons.mp ha with rfl | ha
          · exact Bool.eq_false_iff.mpr hx
          · exact ih h (hsplit ▸ List.mem_cons_self h t) a ha
        · exact ih l (hsplit ▸ List.mem_cons_of_mem h hl) a ha

/-- The separator never occurs inside a chunk produced by `splitOn`. -/
theorem splitOn_not_mem (c : Char) (xs : JStr) : ∀ l ∈ xs.splitOn c, c ∉ l := by
  intro l hl hc
  have h := splitOnP_forall_not (fun a => a == c) xs l hl c hc
  simp at h

/-- Every character that the decimal printer emits is a digit, so a newline
never occurs in its output. -/
theorem newline_not_mem_natToDigitsAux (fuel : Nat) :
    ∀ n, ('\n') ∉ natToDigitsAux fuel n := by
  have hdigit : ∀ m, m < 10 → Nat.digitChar m ≠ '\n' := by decide
  induction fuel with
  | zero =>
    intro n h
    exact absurd h (List.not_mem_nil _)
  | succ fuel ih =>
    intro n h
    simp only [natToDigitsAux] at h
    by_cases h10 : n < 10
    · rw [if_pos h10, List.mem_singleton] at h
      exact hdigit n h10 h.symm
    · rw [if_neg h10] at h
      rcases List.mem_append.mp h with h | h
      · exact ih (n / 10) h
      · rw [List.mem_singleton] at h
        exact hdigit (n % 10) (Nat.mod_lt n (by omega)) h.symm

/-- A newline never occurs in the truncation note. -/
theorem newline_not_mem_truncNote (n : Nat) : ('\n') ∉ truncNote n := by
  intro h
  simp only [truncNote, List.append_assoc, List.mem_append] at h
  rcases h with h | h | h
  · revert h
    decide
  · exact newline_not_mem_natToDigitsAux (n + 1) n h
  · revert h
    decide

/-- C1: for every raw diff and positive `maxLines`, `processDiffOutput`
reports `truncated = true` iff the raw line count exceeds `maxLines`;
`lineCount` is always the pre-truncation count; below the bound the diff is
byte-identical to the input with `truncated = false`; above the bound the
output's lines are exactly the first `maxLines` input lines followed by a
blank line and the truncation note counting the omitted
`rawLineCount - maxLines` lines. -/
theorem processDiffOutput_spec (f : ChangedFile) (rawDiff : JStr) (maxLines : Nat)
    (hpos : 0 < maxLines) :
    ((processDiffOutput f rawDiff maxLines).truncated = true ↔
        maxLines < (rawDiff.splitOn '\n').length) ∧
    (processDiffOutput f rawDiff maxLines).lineCount = (rawDiff.splitOn '\n').length ∧
    ((rawDiff.splitOn '\n').length ≤ maxLines →
        (processDiffOutput f rawDiff maxLines).diff = rawDiff ∧
        (processDiffOutput f rawDiff maxLines).truncated = false) ∧
    (maxLines < (rawDiff.splitOn '\n').length →
        ((processDiffOutput f rawDiff maxLines).diff).splitOn '\n' =
          (rawDiff.splitOn '\n').take maxLines ++
            [[], truncNote ((rawDiff.splitOn '\n').length - maxLines)]) := by
  by_cases h : maxLines < (rawDiff.splitOn '\n').length
  · have hdef : processDiffOutput f rawDiff maxLines =
        { file := f
          diff := ['\n'].intercalate ((rawDiff.splitOn '\n').take maxLines ++
            [[], truncNote ((rawDiff.splitOn '\n').length - maxLines)])
          truncated := true
          lineCount := (rawDiff.splitOn '\n').length } := by
      simp only [processDiffOutput]
      rw [if_pos h]
    refine ⟨by simp [hdef, h], by simp [hdef], fun hle => absurd h (by omega), fun _ => ?_⟩
    rw [hdef]
    refine List.splitOn_intercalate _ _ ?_ (by simp)
    intro l hl
    rcases List.mem_append.mp hl with hl | hl
    · exact splitOn_not_mem '\n' rawDiff l (List.mem_of_mem_take hl)
    · rcases List.mem_cons.mp hl with rfl | hl
      · exact List.not_mem_nil _
      · rw [List.mem_singleton] at hl
        subst hl
        exact newline_not_mem_truncNote _
  · have hdef : processDiffOutput f rawDiff maxLines =
        { file := f, diff := rawDiff, truncated := false,
          lineCount := (rawDiff.splitOn '\n').length } := by
      simp only [processDiffOutput]
      rw [if_neg h]
    refine ⟨by simp [hdef, h], by simp [hdef], fun _ => by simp [hdef], fun hlt => absurd hlt h⟩

/-- Witness for C1 at a concrete truncating input. -/
theorem processDiffOutput_spec_witness :
    0 < 2 ∧
    ((processDiffOutput { path := ("a.md").data, changeType := ChangeType.modified }
          (("l1\nl2\nl3\nl4").data) 2).diff).splitOn '\n' =
      (((("l1\nl2\nl3\nl4").data).splitOn '\n').take 2 ++
        [[], truncNote (((("l1\nl2\nl3\nl4").data).splitOn '\n').length - 2)]) :=
  ⟨by decide,
    (processDiffOutput_spec { path := ("a.md").data, changeType := ChangeType.modified }
      (("l1\nl2\nl3\nl4").data) 2 (by decide)).2.2.2 (by decide)⟩

/-- The `FileDiff` produced for a file always carries that file, whether the
underlying diff command succeeds or fails. -/
theorem generateDiffForFile_file (execDiff : ChangedFile → Option JStr)
    (file : ChangedFile) (options : DiffOptions) :
    (generateDiffForFile execDiff file options).file = file := by
  cases hex : execDiff file with
  | none => simp [generateDiffForFile, hex]
  | some stdout =>
    simp only [generateDiffForFile, hex, processDiffOutput]
    split <;> rfl

/-- C6: when the diff command fails for the `i`-th file, that file receives
the placeholder diff with `truncated = false` and `lineCount = 0`, and
`generateDiffs` still returns one result per input file. -/
theorem generateDiffs_failure_placeholder (execDiff : ChangedFile → Option JStr)
    (files : List ChangedFile) (options : DiffOptions) (i : Nat)
    (h : i < files.length) (hfail : execDiff files[i] = none) :
    (generateDiffs execDiff files options).length = files.length ∧
    (generateDiffs execDiff files options)[i]? =
      some { file := files[i], diff := placeholderDiff, truncated := false,
             lineCount := 0 } := by
  refine ⟨by simp [generateDiffs], ?_⟩
  rw [generateDiffs, List.getElem?_map, List.getElem?_eq_getElem h]
  simp [generateDiffForFile, hfail]

/-- Witness for C6: a batch of two files whose second diff command fails. -/
theorem generateDiffs_failure_placeholder_witness :
    (fun (_ : ChangedFile) => (none : Option JStr))
        ({ path := ("b.md").data, changeType := ChangeType.deleted } : ChangedFile) = none ∧
    (generateDiffs (fun _ => none)
        [{ path := ("a.md").data, changeType := ChangeType.modified },
         { path := ("b.md").data, changeType := ChangeType.deleted }]
        { contextLines := 3, maxLines := 100 })[1]? =
      some { file := { path := ("b.md").data, changeType := ChangeType.deleted },
             diff := placeholderDiff, truncated := false, lineCount := 0 } :=
  ⟨rfl,
    (generateDiffs_failure_placeholder (fun _ => none)
      [{ path := ("a.md").data, changeType := ChangeType.modified },
       { path := ("b.md").data, changeType := ChangeType.deleted }]
      { contextLines := 3, maxLines := 100 } 1 (by decide) rfl).2⟩

/-- C10: `generateDiffs` preserves length and per-index alignment: the `i`-th
output's `file` field is the `i`-th input file, regardless of which diff
commands fail. -/
theorem generateDiffs_alignment (execDiff : ChangedFile → Option JStr)
    (files : List ChangedFile) (options : DiffOptions) :
    (generateDiffs execDiff files options).length = files.length ∧
    ∀ i : Nat, ((generateDiffs execDiff files options)[i]?).map FileDiff.file =
      files[i]? := by
  refine ⟨by simp [generateDiffs], fun i => ?_⟩
  rw [generateDiffs, List.getElem?_map]
  cases hfi : files[i]? with
  | none => simp
  | some f => simp [generateDiffForFile_file]

/-- Characterisation of the pattern predicate: it holds iff some include
pattern matches and no exclude pattern matches. -/
theorem patternPred_eq_true_iff (m : Bool → JStr → JStr → Bool)
    (incl excl : List JStr) (nocase : Bool) (f : ChangedFile) :
    patternPred m incl excl nocase f = true ↔
      (∃ p ∈ incl, m nocase f.path p = true) ∧
      (∀ p ∈ excl, m nocase f.path p = false) := by
  simp only [patternPred, micromatchIsMatch]
  cases hinc : incl.any (fun p => m nocase f.path p) with
  | false =>
    have hno : ¬ ∃ p ∈ incl, m nocase f.path p = true := by
      simpa using List.any_eq_false.mp hinc
    simp [hno]
  | true =>
    have hyes : ∃ p ∈ incl, m nocase f.path p = true := by
      simpa using List.any_eq_true.mp hinc
    by_cases hexc : (excl.any fun p => m nocase f.path p) = true
    case neg =>
      have hexcf : (excl.any fun p => m nocase f.path p) = false :=
        Bool.not_eq_true _ ▸ Bool.of_not_eq_true hexc
      have hall : ∀ p ∈ excl, m nocase f.path p = false := by
        intro p hp
        simpa using List.any_eq_false.mp hexcf p hp
      simp only [hexcf, Bool.not_true, Bool.and_false, if_false, if_true]
      simp [hyes]
      exact hall
    case pos =>
      obtain ⟨p, hp, hmp⟩ := List.any_eq_true.mp hexc
      have hlen : 0 < excl.length :=
        List.length_pos.mpr (by rintro rfl; exact absurd hp (List.not_mem_nil p))
      have hnotall : ¬ ∀ q ∈ excl, m nocase f.path q = false := by
        intro hall
        rw [hall p hp] at hmp
        exact Bool.false_ne_true hmp
      simp [hlen, hnotall, hexc]

/-- Characterisation of the change-type gate: it only ever removes added
files (when `createOnNewFiles` is off) and deleted files (when
`createOnDeletedFiles` is off). -/
theorem typeGate_eq_true_iff (cn cd : Bool) (f : ChangedFile) :
    typeGate cn cd f = true ↔
      ((f.changeType = ChangeType.added → cn = true) ∧
       (f.changeType = ChangeType.deleted → cd = true)) := by
  obtain ⟨path, ct, pp⟩ := f
  cases ct <;> cases cn <;> cases cd <;> simp [typeGate]

/-- C2: a file survives the detection filter iff its path matches some
include pattern, matches no exclude pattern, and its change type is not
gated off by the added/deleted toggles; moreover a modified or renamed file
is never removed by the two toggles. -/
theorem detectChangedFiles_survives_iff (m : Bool → JStr → JStr → Bool)
    (files : List ChangedFile) (options : FileDetectorOptions)
    (hne : options.patterns ≠ []) (f : ChangedFile) :
    (f ∈ detectChangedFiles m files options ↔
      f ∈ files ∧
      (∃ p ∈ options.patterns, m (!options.caseSensitive) f.path p = true) ∧
      (∀ p ∈ options.excludePatterns, m (!options.caseSensitive) f.path p = false) ∧
      (f.changeType = ChangeType.added → options.createOnNewFiles = true) ∧
      (f.changeType = ChangeType.deleted → options.createOnDeletedFiles = true)) ∧
    ((f.changeType = ChangeType.modified ∨ f.changeType = ChangeType.renamed) →
      (f ∈ detectChangedFiles m files options ↔
        f ∈ filterFilesByPatterns m files options.patterns options.excludePatterns
          options.caseSensitive)) := by
  constructor
  · rw [detectChangedFiles, List.mem_filter, filterFilesByPatterns, List.mem_filter,
      patternPred_eq_true_iff, typeGate_eq_true_iff]
    tauto
  · intro hmr
    rw [detectChangedFiles, List.mem_filter]
    have hgate : typeGate options.createOnNewFiles options.createOnDeletedFiles f = true := by
      rw [typeGate_eq_true_iff]
      rcases hmr with h | h <;> rw [h] <;> exact ⟨fun hh => absurd hh (by decide),
        fun hh => absurd hh (by decide)⟩
    simp [hgate]

/-- Witness for C2: with an exact-match matcher, a modified file whose path
is listed in the include patterns survives detection even though both
toggles are off. -/
theorem detectChangedFiles_survives_iff_witness :
    c2Options.patterns ≠ [] ∧ c2File ∈ detectChangedFiles exactMatcher [c2File] c2Options :=
  ⟨by decide,
    (detectChangedFiles_survives_iff exactMatcher [c2File] c2Options (by decide) c2File).1.mpr
      (by decide)⟩

/-- C3: a name-status line whose status starts with `R` yields exactly one
entry, whose `path` is the new path, whose change type is `renamed` and
whose `previousPath` is the old path; a rename line with no resolvable new
path yields no entry; and the concrete line
`R100  old/spec.md  new/spec.md` (tab-separated) parses to exactly the
expected rename entry. -/
theorem parseNameStatus_rename_spec :
    (∀ line old new,
        strStartsWith ((line.splitOn '\t').getD 0 []) (("R").data) = true →
        (line.splitOn '\t')[1]? = some old → old ≠ [] →
        (line.splitOn '\t')[2]? = some new → new ≠ [] →
        parseNameStatusLine line =
          [{ path := new, changeType := ChangeType.renamed, previousPath := some old }]) ∧
    (∀ line,
        strStartsWith ((line.splitOn '\t').getD 0 []) (("R").data) = true →
        ((line.splitOn '\t')[2]? = none ∨ (line.splitOn '\t')[2]? = some []) →
        parseNameStatusLine line = []) ∧
    parseGitDiffNameStatus (("R100\told/spec.md\tnew/spec.md").data) =
      [{ path := ("new/spec.md").data, changeType := ChangeType.renamed,
         previousPath := some (("old/spec.md").data) }] := by
  refine ⟨?_, ?_, by decide⟩
  · intro line old new hR h1 hold h2 hnew
    simp only [parseNameStatusLine, h1, h2, hR]
    rw [if_neg hold]
    simp [hnew]
  · intro line hR hcase
    cases h1 : (line.splitOn '\t')[1]? with
    | none => simp [parseNameStatusLine, h1]
    | some path =>
      by_cases hp : path = []
      · simp [parseNameStatusLine, h1, hp]
      · rcases hcase with h2 | h2 <;>
          · simp only [parseNameStatusLine, h1, h2, hR]
            rw [if_neg hp]
            simp

/-- Witness for C3 at a concrete rename line. -/
theorem parseNameStatus_rename_spec_witness :
    strStartsWith (((("R100\ta\tb").data).splitOn '\t').getD 0 []) (("R").data) = true ∧
    parseNameStatusLine (("R100\ta\tb").data) =
      [{ path := ("b").data, changeType := ChangeType.renamed,
         previousPath := some (("a").data) }] :=
  ⟨by decide,
    parseNameStatus_rename_spec.1 (("R100\ta\tb").data) (("a").data) (("b").data)
      (by decide) (by decide) (by decide) (by decide) (by decide)⟩

/-- Every entry contributed by one parsed name-status line satisfies the
`previousPath`-iff-`renamed` invariant. -/
theorem mem_parseNameStatusLine_inv (line : JStr) (f : ChangedFile)
    (hf : f ∈ parseNameStatusLine line) :
    (f.previousPath ≠ none ↔ f.changeType = ChangeType.renamed) := by
  simp only [parseNameStatusLine] at hf
  repeat' split at hf
  all_goals simp_all

/-- C9: every `ChangedFile` produced by the change-detection stage — both by
name-status parsing and by the all-tracked-files fallback — has
`previousPath` set iff its change type is `renamed`. -/
theorem previousPath_iff_renamed (diffResult : Option JStr) (lsFilesOut : JStr)
    (f : ChangedFile) (hf : f ∈ getChangedFilesFromGit diffResult lsFilesOut) :
    (f.previousPath ≠ none ↔ f.changeType = ChangeType.renamed) := by
  cases diffResult with
  | some stdout =>
    simp only [getChangedFilesFromGit, parseGitDiffNameStatus] at hf
    rw [List.mem_flatten] at hf
    obtain ⟨l, hl, hfl⟩ := hf
    rw [List.mem_map] at hl
    obtain ⟨line, _, rfl⟩ := hl
    exact mem_parseNameStatusLine_inv line f hfl
  | none =>
    simp only [getChangedFilesFromGit, listAllTrackedAsAdded] at hf
    rw [List.mem_map] at hf
    obtain ⟨p, _, rfl⟩ := hf
    simp

/-- Witness for C9 at a concrete rename entry produced by the parser. -/
theorem previousPath_iff_renamed_witness :
    ({ path := ("b.md").data, changeType := ChangeType.renamed,
       previousPath := some (("a.md").data) } : ChangedFile) ∈
        getChangedFilesFromGit (some (("R090\ta.md\tb.md").data)) [] ∧
    (some (("a.md").data) ≠ (none : Option JStr) ↔
      ChangeType.renamed = ChangeType.renamed) :=
  ⟨by decide,
    previousPath_iff_renamed (some (("R090\ta.md\tb.md").data)) []
      { path := ("b.md").data, changeType := ChangeType.renamed,
        previousPath := some (("a.md").data) } (by decide)⟩

/-- C5: when the name-status comparison command fails, the fallback lists
every tracked file (each non-empty line of the `git ls-files` output, in
order) and classifies every one as `added` with no `previousPath`; the
function returns normally, raising no error. -/
theorem getChangedFilesFromGit_fallback (lsFilesOut : JStr) :
    (getChangedFilesFromGit none lsFilesOut).map ChangedFile.path =
      ((jsTrim lsFilesOut).splitOn '\n').filter (fun l => 0 < l.length) ∧
    ∀ f ∈ getChangedFilesFromGit none lsFilesOut,
      f.changeType = ChangeType.added ∧ f.previousPath = none := by
  constructor
  · simp only [getChangedFilesFromGit, listAllTrackedAsAdded, List.map_map]
    exact List.map_id' _
  · intro f hf
    simp only [getChangedFilesFromGit, listAllTrackedAsAdded] at hf
    rw [List.mem_map] at hf
    obtain ⟨p, _, rfl⟩ := hf
    exact ⟨rfl, rfl⟩

/-- Witness for C5 on a concrete two-file `git ls-files` output. -/
theorem getChangedFilesFromGit_fallback_witness :
    ({ path := ("b.md").data, changeType := ChangeType.added } : ChangedFile) ∈
        getChangedFilesFromGit none (("a.md\nb.md\n").data) ∧
    ChangeType.added = ChangeType.added ∧ (none : Option JStr) = none :=
  ⟨by decide,
    (getChangedFilesFromGit_fallback (("a.md\nb.md\n").data)).2
      { path := ("b.md").data, changeType := ChangeType.added } (by decide)⟩

/-- C4: when `resolveBodyTemplate` treats its input as a file path, a
resolved path that escapes the repository root yields the default template
for every possible file reader — the file content is never read; and a
resolved path inside the root whose file does not exist also yields the
default template. -/
theorem resolveBodyTemplate_guard (resolve : JStr → JStr) (root : JStr)
    (ex : JStr → Bool) (rd : JStr → JStr) (input : JStr)
    (hne : ¬(input = [] ∨ jsTrim input = []))
    (hpath : (strEndsWith input ((".md").data) ||
        input.contains (Char.ofNat 47)) = true) :
    (strStartsWith (resolve input) root = false →
        resolveBodyTemplate
          { resolve := resolve, repoRoot := root, existsSync := ex, readFileSync := rd }
          input = DEFAULT_TEMPLATE) ∧
    (strStartsWith (resolve input) root = true → ex (resolve input) = false →
        resolveBodyTemplate
          { resolve := resolve, repoRoot := root, existsSync := ex, readFileSync := rd }
          input = DEFAULT_TEMPLATE) := by
  constructor
  · intro hesc
    simp only [resolveBodyTemplate]
    rw [if_neg hne, if_pos hpath]
    simp [hesc]
  · intro hin hnex
    simp only [resolveBodyTemplate]
    rw [if_neg hne, if_pos hpath]
    simp [hin, hnex]

/-- Witness for C4: a traversal reference whose resolution lands outside the
repository root falls back to the default template. -/
theorem resolveBodyTemplate_guard_witness :
    ¬((("../x.md").data : JStr) = [] ∨ jsTrim (("../x.md").data) = []) ∧
    resolveBodyTemplate c4Fs (("../x.md").data) = DEFAULT_TEMPLATE :=
  ⟨by decide,
    (resolveBodyTemplate_guard c4Fs.resolve c4Fs.repoRoot c4Fs.existsSync c4Fs.readFileSync
      (("../x.md").data) (by decide) (by decide)).1 (by decide)⟩

/-- C7 counterexample: rendering the same `FileDiff`, `RenderOptions` and
partial `TemplateContext` twice is not byte-identical when the context
supplies no `commit_date` — the body embeds the ambient clock reading taken
at each call, and two calls at different instants disagree. -/
theorem renderIssue_not_clock_independent :
    renderIssue exFsm {} (("2024-01-01T00:00:00.000Z").data) exFileDiff c7Options {} ≠
      renderIssue exFsm {} (("2024-01-01T00:00:00.001Z").data) exFileDiff c7Options {} := by
  decide

/-- C7 amended: rendering the same `FileDiff`, `RenderOptions` and partial
`TemplateContext` twice produces byte-identical `RenderedIssue` output
provided the ambient process state is unchanged between the calls; in
particular, whenever the context supplies a non-empty `commit_date`, the
output is independent of the clock reading, so the two calls agree even if
time has passed. -/
theorem renderIssue_deterministic (fsm : FsModel) (env : Env) (now1 now2 : JStr)
    (fileDiff : FileDiff) (options : RenderOptions) (context : BaseContext)
    (h : jsTruthy context.commit_date = true) :
    renderIssue fsm env now1 fileDiff options context =
      renderIssue fsm env now2 fileDiff options context := by
  have hctx : buildTemplateContext env now1 fileDiff context options =
      buildTemplateContext env now2 fileDiff context options := by
    cases hcd : context.commit_date with
    | none =>
      rw [hcd] at h
      exact absurd h (by simp [jsTruthy])
    | some s =>
      rw [hcd] at h
      have hs : s ≠ [] := by simpa [jsTruthy] using h
      simp [buildTemplateContext, hcd, jsOr, hs]
  simp [renderIssue, hctx]

/-- Witness for the amended C7: with a supplied commit date, two renders at
different clock readings coincide. -/
theorem renderIssue_deterministic_witness :
    jsTruthy exBaseDated.commit_date = true ∧
    renderIssue exFsm {} (("2024-01-01T00:00:00.000Z").data) exFileDiff c7Options
        exBaseDated =
      renderIssue exFsm {} (("2024-01-01T00:00:00.001Z").data) exFileDiff c7Options
        exBaseDated :=
  ⟨by decide,
    renderIssue_deterministic exFsm {} (("2024-01-01T00:00:00.000Z").data)
      (("2024-01-01T00:00:00.001Z").data) exFileDiff c7Options exBaseDated (by decide)⟩

/-- C8 counterexample: with `includeFileLink` on but the commit SHA absent
(neither in the base context nor in the environment), `file_link` is not the
empty string — the code builds the URL with an empty ref segment instead of
suppressing the link. -/
theorem file_link_nonempty_without_sha :
    jsOr (({} : BaseContext)).commit_sha (jsOr (({} : Env)).GITHUB_SHA []) = [] ∧
    (buildTemplateContext {} [] exFileDiff {} c8Options).file_link ≠ [] := by
  decide

/-- C8 amended: `file_link` and `commit_link` are the empty string exactly
when their inclusion flag is false — an absent commit SHA does not empty
them but leaves an empty ref segment in the URL — while `pr_link` is empty
exactly when `includePrLink` is false or the PR number is absent; when
produced, each link has the documented
`{server}/{owner/repo}/{blob|commit|pull}/...` shape. -/
theorem buildTemplateContext_links (env : Env) (now : JStr) (fileDiff : FileDiff)
    (baseContext : BaseContext) (options : RenderOptions) :
    ((buildTemplateContext env now fileDiff baseContext options).file_link = [] ↔
        options.includeFileLink = false) ∧
    ((buildTemplateContext env now fileDiff baseContext options).commit_link = [] ↔
        options.includeCommitLink = false) ∧
    ((buildTemplateContext env now fileDiff baseContext options).pr_link = [] ↔
        (options.includePrLink = false ∨ jsOr baseContext.pr_number [] = [])) ∧
    (options.includeFileLink = true →
        (buildTemplateContext env now fileDiff baseContext options).file_link =
          getRepoUrl env ++ ("/blob/").data ++
            jsOr baseContext.commit_sha (jsOr env.GITHUB_SHA []) ++ [Char.ofNat 47] ++
            fileDiff.file.path) ∧
    (options.includeCommitLink = true →
        (buildTemplateContext env now fileDiff baseContext options).commit_link =
          getRepoUrl env ++ ("/commit/").data ++
            jsOr baseContext.commit_sha (jsOr env.GITHUB_SHA [])) ∧
    (options.includePrLink = true → jsOr baseContext.pr_number [] ≠ [] →
        (buildTemplateContext env now fileDiff baseContext options).pr_link =
          getRepoUrl env ++ ("/pull/").data ++ jsOr baseContext.pr_number []) := by
  refine ⟨?_, ?_, ?_, ?_, ?_, ?_⟩
  · cases hio : options.includeFileLink <;> simp [buildTemplateContext, hio]
  · cases hio : options.includeCommitLink <;> simp [buildTemplateContext, hio]
  · cases hio : options.includePrLink with
    | false => simp [buildTemplateContext, hio]
    | true =>
      by_cases hpn : jsOr baseContext.pr_number [] = [] <;>
        simp [buildTemplateContext, hio, hpn]
  · intro hio
    simp [buildTemplateContext, hio]
  · intro hio
    simp [buildTemplateContext, hio]
  · intro hio hpn
    simp [buildTemplateContext, hio, hpn]

/-- Witness for the amended C8: the concrete `file_link` shape with every
flag on. -/
theorem buildTemplateContext_links_witness :
    c8Options.includeFileLink = true ∧
    (buildTemplateContext {} [] exFileDiff {} c8Options).file_link =
      getRepoUrl {} ++ ("/blob/").data ++
        jsOr (({} : BaseContext)).commit_sha (jsOr (({} : Env)).GITHUB_SHA []) ++
        [Char.ofNat 47] ++ exFileDiff.file.path :=
  ⟨rfl, (buildTemplateContext_links {} [] exFileDiff {} c8Options).2.2.2.1 rfl⟩

end SpecOps
